import Mathlib

/-!
Formal model of `asio::basic_socket_connector`
(src/asio/include/asio/basic_socket_connector.hpp).

The connector is a thin wrapper that forwards every operation to a backend
`Service`.  The wrapper itself (constructors, destructor, `open`, `close`,
`impl`, the two blocking `connect` overloads and `async_connect`) is embedded
directly from the header.  The service implementation is not part of the
sources, so its behaviour is modelled from the specification (section 4 to 7
of spec.md): an opaque per-connector implementation handle that is either the
service's null value or open, a pending-operation set for in-flight
asynchronous connects, cancellation-on-close with `OperationCancelled`,
`NotOpenError` on operations against a closed handle, and an `OpenError`
path when the underlying resource cannot be allocated.

Every operation returns, besides its result, a list of `Event`s recording
the service calls it performed (with the arguments the service observed) and
every completion-handler or error-handler invocation.  Temporal statements
("the handler is invoked before `close()` returns", "the handler is never
invoked") become statements about these traces.
-/

namespace Asio

/-- Error classification carried by `asio::socket_error` values, following
the error taxonomy of the specification (spec.md section 7). -/
inductive socket_error where
  | OpenError
  | NotOpenError
  | ConnectionRefused
  | Unreachable
  | AddressInUse
  | ConnectFailed
  | OperationCancelled
deriving DecidableEq

/-- The native implementation handle of a connector
(`service_type::impl_type`).  It is opaque: the only thing the connector
ever does with it is compare it against the service's null value, so it is
modelled as either the null value or an open handle. -/
inductive impl_type where
  | null
  | opened
deriving DecidableEq

/-- A possibly layered stream object.  `basic_socket_connector` connects
layered streams through `peer_socket.lowest_layer()`, so a stream is either
a base socket (identified by its socket id) or a wrapper layer (with its own
id) around an inner stream. -/
inductive Stream where
  | base (sockId : Nat)
  | layered (layerId : Nat) (inner : Stream)
deriving DecidableEq

/-- The lowest layer of a possibly layered stream: the underlying socket. -/
def Stream.lowest_layer : Stream → Nat
  | Stream.base sockId => sockId
  | Stream.layered _ inner => inner.lowest_layer

/-- Observable events of a connector operation: each service call with the
arguments the service observed, and each invocation of a completion handler
(identified by handler id, `none` meaning the no-error success sentinel) or
of a caller-supplied synchronous error handler. -/
inductive Event where
  | openCall (observed : impl_type)
  | openProtocolCall (observed : impl_type) (protocol : Nat)
  | closeCall (observed : impl_type)
  | connectCall (observed : impl_type) (sock : Nat) (addr : Nat)
  | asyncConnectCall (observed : impl_type) (sock : Nat) (addr : Nat) (hid : Nat)
  | handlerCall (hid : Nat) (e : Option socket_error)
  | errorHandlerCall (e : socket_error)
deriving DecidableEq

/-- State of the service, as far as one connector's handle is concerned:
the pending asynchronous connect operations registered on the handle
(by handler id), the addresses the network reports as unreachable, and
whether resource allocation currently fails (making `open` fail with
`OpenError`). -/
structure SvcState where
  pending : List Nat
  unreachable : List Nat
  allocFail : Bool
deriving DecidableEq

namespace Service

/-- The service's null implementation handle (`service_type::null()`). -/
def null : impl_type := impl_type.null

/-- Modelled from the spec: `open(handle)` allocates the underlying
resource.  It fails with `OpenError` if the resource cannot be allocated,
in which case the handle is left exactly as it was (never half-open);
on success the handle becomes open. -/
def «open» (impl : impl_type) (s : SvcState) :
    impl_type × SvcState × List Event × Option socket_error :=
  if s.allocFail then
    (impl, s, [Event.openCall impl], some socket_error.OpenError)
  else
    (impl_type.opened, s, [Event.openCall impl], none)

/-- Modelled from the spec: `open(handle, protocol)` behaves like
`open(handle)` but records the requested protocol. -/
def openProtocol (impl : impl_type) (protocol : Nat) (s : SvcState) :
    impl_type × SvcState × List Event × Option socket_error :=
  if s.allocFail then
    (impl, s, [Event.openProtocolCall impl protocol], some socket_error.OpenError)
  else
    (impl_type.opened, s, [Event.openProtocolCall impl protocol], none)

/-- Modelled from the spec: `close(handle)` releases the handle and
synchronously cancels every pending asynchronous connect on it, invoking
each pending operation's handler exactly once with `OperationCancelled`
before returning.  Closing an already-null handle is a no-op. -/
def close (impl : impl_type) (s : SvcState) :
    impl_type × SvcState × List Event :=
  match impl with
  | impl_type.null => (impl_type.null, s, [Event.closeCall impl_type.null])
  | impl_type.opened =>
      (impl_type.null, { s with pending := [] },
        Event.closeCall impl_type.opened ::
          s.pending.map
            (fun h => Event.handlerCall h (some socket_error.OperationCancelled)))

/-- Modelled from the spec: blocking `connect(handle, sock, addr, hdl)`.
On a closed handle it fails with `NotOpenError`; otherwise the outcome is
determined by the network: `Unreachable` for an unreachable address,
success (`none`) otherwise.  The error-reporting policy is applied by the
connector wrapper on the returned classification. -/
def connect (impl : impl_type) (sock : Nat) (addr : Nat) (s : SvcState) :
    List Event × Option socket_error :=
  match impl with
  | impl_type.null =>
      ([Event.connectCall impl_type.null sock addr], some socket_error.NotOpenError)
  | impl_type.opened =>
      ([Event.connectCall impl_type.opened sock addr],
        if addr ∈ s.unreachable then some socket_error.Unreachable else none)

/-- Modelled from the spec: `async_connect(handle, sock, addr, hid)`.
On a closed handle it fails immediately and synchronously with
`NotOpenError` and the handler is never scheduled (the pending set is
unchanged).  On an open handle it registers the operation as pending and
returns immediately with no error. -/
def async_connect (impl : impl_type) (sock : Nat) (addr : Nat) (hid : Nat)
    (s : SvcState) : SvcState × List Event × Option socket_error :=
  match impl with
  | impl_type.null =>
      (s, [Event.asyncConnectCall impl_type.null sock addr hid],
        some socket_error.NotOpenError)
  | impl_type.opened =>
      ({ s with pending := s.pending ++ [hid] },
        [Event.asyncConnectCall impl_type.opened sock addr hid], none)

/-- Modelled from the spec: the dispatch loop resolving one asynchronous
operation.  If the operation is still pending its handler is invoked with
the outcome and it is removed from the pending set; an operation that is no
longer pending (for instance, one already cancelled by `close`) invokes
nothing. -/
def complete (hid : Nat) (e : Option socket_error) (s : SvcState) :
    SvcState × List Event :=
  if hid ∈ s.pending then
    ({ s with pending := s.pending.erase hid }, [Event.handlerCall hid e])
  else
    (s, [])

end Service

/-- The connector: it stores exactly the underlying native implementation,
as in the source (`impl_type impl_;`). -/
structure Connector where
  impl_ : impl_type
deriving DecidableEq

/-- Constructor `basic_socket_connector(demuxer_type& d)`: the member
initialiser sets `impl_` to `service_type::null()`, and only then does the
body run `service_.open(impl_)`. -/
def basic_socket_connector (s : SvcState) :
    Connector × SvcState × List Event × Option socket_error :=
  let impl0 := Service.null
  let r := Service.«open» impl0 s
  ({ impl_ := r.1 }, r.2.1, r.2.2.1, r.2.2.2)

/-- Constructor `basic_socket_connector(demuxer_type& d, const Protocol&)`:
the member initialiser sets `impl_` to `service_type::null()`, then the body
runs `service_.open(impl_, protocol)`. -/
def basic_socket_connector_protocol (protocol : Nat) (s : SvcState) :
    Connector × SvcState × List Event × Option socket_error :=
  let impl0 := Service.null
  let r := Service.openProtocol impl0 protocol s
  ({ impl_ := r.1 }, r.2.1, r.2.2.1, r.2.2.2)

namespace Connector

/-- `void open()`: runs `service_.open(impl_)`. -/
def «open» (c : Connector) (s : SvcState) :
    Connector × SvcState × List Event × Option socket_error :=
  let r := Service.«open» c.impl_ s
  ({ impl_ := r.1 }, r.2.1, r.2.2.1, r.2.2.2)

/-- `void open(const Protocol& protocol)`: runs
`service_.open(impl_, protocol)`. -/
def openProtocol (c : Connector) (protocol : Nat) (s : SvcState) :
    Connector × SvcState × List Event × Option socket_error :=
  let r := Service.openProtocol c.impl_ protocol s
  ({ impl_ := r.1 }, r.2.1, r.2.2.1, r.2.2.2)

/-- `void close()`: runs `service_.close(impl_)`. -/
def close (c : Connector) (s : SvcState) :
    Connector × SvcState × List Event :=
  let r := Service.close c.impl_ s
  ({ impl_ := r.1 }, r.2.1, r.2.2)

/-- `~basic_socket_connector()`: the destructor body runs
`service_.close(impl_)`. -/
def destruct (c : Connector) (s : SvcState) :
    Connector × SvcState × List Event :=
  let r := Service.close c.impl_ s
  ({ impl_ := r.1 }, r.2.1, r.2.2)

/-- `impl_type impl()`: returns the underlying implementation by value and
changes nothing. -/
def impl (c : Connector) (s : SvcState) : impl_type × Connector × SvcState :=
  (c.impl_, c, s)

/-- `void connect(Stream&, const Address&)` (default error policy): runs
`service_.connect(impl_, peer_socket.lowest_layer(), peer_address,
default_error_handler())`.  The `default_error_handler` raises the error at
the call site, modelled as the `Option socket_error` component of the
result. -/
def connect (c : Connector) (peer : Stream) (addr : Nat) (s : SvcState) :
    List Event × Option socket_error :=
  Service.connect c.impl_ peer.lowest_layer addr s

/-- `void connect(Stream&, const Address&, Error_Handler)`: runs
`service_.connect(impl_, peer_socket.lowest_layer(), peer_address,
error_handler)`.  The caller-supplied handler is invoked synchronously with
the error classification on failure and the call returns normally, so the
result is only the event trace. -/
def connect_eh (c : Connector) (peer : Stream) (addr : Nat) (s : SvcState) :
    List Event :=
  let r := Service.connect c.impl_ peer.lowest_layer addr s
  match r.2 with
  | none => r.1
  | some e => r.1 ++ [Event.errorHandlerCall e]

/-- `void async_connect(Stream&, const Address&, Handler)`: runs
`service_.async_connect(impl_, peer_socket.lowest_layer(), peer_address,
handler)`. -/
def async_connect (c : Connector) (peer : Stream) (addr : Nat) (hid : Nat)
    (s : SvcState) : SvcState × List Event × Option socket_error :=
  Service.async_connect c.impl_ peer.lowest_layer addr hid s

end Connector

/-- One public connector operation, for reasoning about call sequences. -/
inductive Op where
  | op_open : Op
  | op_close : Op
  | op_connect (peer : Stream) (addr : Nat) : Op
  | op_async_connect (peer : Stream) (addr : Nat) (hid : Nat) : Op
  | op_impl : Op
deriving DecidableEq

/-- Run one operation on a connector and its service state, returning the
new state and the synchronously reported error, if any. -/
def runOp (op : Op) (cs : Connector × SvcState) :
    (Connector × SvcState) × Option socket_error :=
  match op with
  | Op.op_open =>
      let r := Connector.«open» cs.1 cs.2
      ((r.1, r.2.1), r.2.2.2)
  | Op.op_close =>
      let r := Connector.close cs.1 cs.2
      ((r.1, r.2.1), none)
  | Op.op_connect peer addr =>
      (cs, (Connector.connect cs.1 peer addr cs.2).2)
  | Op.op_async_connect peer addr hid =>
      let r := Connector.async_connect cs.1 peer addr hid cs.2
      ((cs.1, r.1), r.2.2)
  | Op.op_impl => (cs, none)

/-- Run a sequence of operations, keeping only the resulting state. -/
def run (l : List Op) (cs : Connector × SvcState) : Connector × SvcState :=
  match l with
  | [] => cs
  | op :: rest => run rest (runOp op cs).1

/-- Sample open service state used by concrete witnesses. -/
def sampleSvc : SvcState :=
  { pending := [1, 2], unreachable := [5], allocFail := false }

/-- Sample open connector used by concrete witnesses. -/
def sampleConn : Connector := { impl_ := impl_type.opened }

/-- Sample closed connector used by concrete witnesses. -/
def sampleClosedConn : Connector := { impl_ := impl_type.null }

/-- A blocking connect on a closed handle reports `NotOpenError`. -/
theorem connect_closed_aux (c : Connector) (s : SvcState) (peer : Stream)
    (addr : Nat) (h : c.impl_ = impl_type.null) :
    (Connector.connect c peer addr s).2 = some socket_error.NotOpenError := by
  simp [Connector.connect, Service.connect, h]

/-- An asynchronous connect on a closed handle reports `NotOpenError` and
leaves the service state unchanged. -/
theorem async_connect_closed_aux (c : Connector) (s : SvcState) (peer : Stream)
    (addr hid : Nat) (h : c.impl_ = impl_type.null) :
    (Connector.async_connect c peer addr hid s).2.2 =
        some socket_error.NotOpenError ∧
      (Connector.async_connect c peer addr hid s).1 = s := by
  simp [Connector.async_connect, Service.async_connect, h]

/-- No connector operation ever changes whether allocation fails. -/
theorem runOp_allocFail (op : Op) (cs : Connector × SvcState) :
    ((runOp op cs).1.2).allocFail = cs.2.allocFail := by
  cases op with
  | op_open =>
      by_cases h : cs.2.allocFail <;>
        simp [runOp, Connector.«open», Service.«open», h]
  | op_close =>
      cases h : cs.1.impl_ <;>
        simp [runOp, Connector.close, Service.close, h]
  | op_connect peer addr => simp [runOp]
  | op_async_connect peer addr hid =>
      cases h : cs.1.impl_ <;>
        simp [runOp, Connector.async_connect, Service.async_connect, h]
  | op_impl => simp [runOp]

/-- An operation that is not a successful `open` leaves a closed connector
closed. -/
theorem runOp_preserves_closed (op : Op) (cs : Connector × SvcState)
    (hclosed : cs.1.impl_ = impl_type.null)
    (hop : op = Op.op_open → cs.2.allocFail = true) :
    (runOp op cs).1.1.impl_ = impl_type.null := by
  cases op with
  | op_open =>
      have ha := hop rfl
      simp [runOp, Connector.«open», Service.«open», ha, hclosed]
  | op_close => simp [runOp, Connector.close, Service.close, hclosed]
  | op_connect peer addr => simpa [runOp] using hclosed
  | op_async_connect peer addr hid =>
      simp [runOp, Connector.async_connect, Service.async_connect, hclosed]
  | op_impl => simpa [runOp] using hclosed

/-- A sequence of operations containing no successful `open` leaves a
closed connector closed. -/
theorem run_preserves_closed (l : List Op) (cs : Connector × SvcState)
    (hclosed : cs.1.impl_ = impl_type.null)
    (hop : ∀ op ∈ l, op = Op.op_open → cs.2.allocFail = true) :
    (run l cs).1.impl_ = impl_type.null := by
  induction l generalizing cs with
  | nil => exact hclosed
  | cons op rest ih =>
      refine ih (runOp op cs).1
        (runOp_preserves_closed op cs hclosed (hop op (List.mem_cons_self op rest)))
        ?_
      intro op2 h2 heq
      rw [runOp_allocFail]
      exact hop op2 (List.mem_cons_of_mem op h2) heq

/-- `close` never changes whether allocation fails. -/
theorem close_allocFail (c : Connector) (s : SvcState) :
    ((Connector.close c s).2.1).allocFail = s.allocFail := by
  cases h : c.impl_ <;> simp [Connector.close, Service.close, h]

/-- C6: destroying a connector has exactly the same effect on the
connector's state, the service state and the emitted events as calling
`close()`, from every state — including a freshly constructed, never-used
connector.  Both source bodies consist of the single call
`service_.close(impl_)`, so by `close`'s semantics the destructor also
cancels any pending asynchronous connects. -/
theorem destructor_equals_close (c : Connector) (s : SvcState) :
    Connector.destruct c s = Connector.close c s := rfl

/-- C10: the accessor `impl()` returns the current implementation handle by
value and leaves the connector, the service state and in particular the
pending-operation set unchanged. -/
theorem impl_accessor_frame (c : Connector) (s : SvcState) :
    (Connector.impl c s).1 = c.impl_ ∧
      (Connector.impl c s).2.1 = c ∧
      (Connector.impl c s).2.2 = s ∧
      ((Connector.impl c s).2.2).pending = s.pending :=
  ⟨rfl, rfl, rfl, rfl⟩

/-- C9: both constructors initialise the stored handle to the service's
null value before invoking the service's `open`, so the `open` call in the
constructor trace always observes the null handle. -/
theorem constructor_open_observes_null (s : SvcState) (protocol : Nat) :
    (basic_socket_connector s).2.2.1 = [Event.openCall Service.null] ∧
      (basic_socket_connector_protocol protocol s).2.2.1 =
        [Event.openProtocolCall Service.null protocol] := by
  by_cases h : s.allocFail <;>
    simp [basic_socket_connector, basic_socket_connector_protocol,
      Service.«open», Service.openProtocol, Service.null, h]

/-- C5: neither constructor can leave the connector half-open: either the
construction succeeds and the handle is open, or it fails with `OpenError`
and the handle is still the service's null value. -/
theorem constructor_never_half_open (s : SvcState) (protocol : Nat) :
    (((basic_socket_connector s).2.2.2 = none ∧
        (basic_socket_connector s).1.impl_ = impl_type.opened) ∨
      ((basic_socket_connector s).2.2.2 = some socket_error.OpenError ∧
        (basic_socket_connector s).1.impl_ = Service.null)) ∧
    (((basic_socket_connector_protocol protocol s).2.2.2 = none ∧
        (basic_socket_connector_protocol protocol s).1.impl_ = impl_type.opened) ∨
      ((basic_socket_connector_protocol protocol s).2.2.2 =
          some socket_error.OpenError ∧
        (basic_socket_connector_protocol protocol s).1.impl_ = Service.null)) := by
  by_cases h : s.allocFail <;>
    simp [basic_socket_connector, basic_socket_connector_protocol,
      Service.«open», Service.openProtocol, Service.null, h]

/-- C2: an asynchronous connect issued on a closed connector fails
immediately and synchronously with `NotOpenError`; the service state (in
particular the pending-operation set) is unchanged, so the handler is never
scheduled, and the operation's trace contains no handler invocation of any
kind. -/
theorem async_connect_on_closed (c : Connector) (s : SvcState) (peer : Stream)
    (addr hid : Nat) (hclosed : c.impl_ = impl_type.null) :
    (Connector.async_connect c peer addr hid s).2.2 =
        some socket_error.NotOpenError ∧
      (Connector.async_connect c peer addr hid s).1 = s ∧
      (∀ h e, Event.handlerCall h e ∉
        (Connector.async_connect c peer addr hid s).2.1) ∧
      (∀ e, Event.errorHandlerCall e ∉
        (Connector.async_connect c peer addr hid s).2.1) := by
  simp [Connector.async_connect, Service.async_connect, hclosed]

/-- Witness for C2 at a concrete closed connector. -/
theorem async_connect_on_closed_witness :
    sampleClosedConn.impl_ = impl_type.null ∧
      ((Connector.async_connect sampleClosedConn (Stream.base 7) 4 1 sampleSvc).2.2 =
          some socket_error.NotOpenError ∧
        (Connector.async_connect sampleClosedConn (Stream.base 7) 4 1 sampleSvc).1 =
          sampleSvc ∧
        (∀ h e, Event.handlerCall h e ∉
          (Connector.async_connect sampleClosedConn (Stream.base 7) 4 1 sampleSvc).2.1) ∧
        (∀ e, Event.errorHandlerCall e ∉
          (Connector.async_connect sampleClosedConn (Stream.base 7) 4 1 sampleSvc).2.1)) :=
  ⟨rfl, async_connect_on_closed sampleClosedConn sampleSvc (Stream.base 7) 4 1 rfl⟩

/-- C8: every connect variant passes the lowest layer of the (possibly
layered) peer stream to the service — never the stream object itself — so
a layered stream is connected through its underlying socket. -/
theorem connect_passes_lowest_layer (c : Connector) (s : SvcState)
    (peer : Stream) (addr hid : Nat) :
    (Connector.connect c peer addr s).1 =
        [Event.connectCall c.impl_ peer.lowest_layer addr] ∧
      (Connector.connect_eh c peer addr s).head? =
        some (Event.connectCall c.impl_ peer.lowest_layer addr) ∧
      (Connector.async_connect c peer addr hid s).2.1 =
        [Event.asyncConnectCall c.impl_ peer.lowest_layer addr hid] ∧
      (∀ w : Nat, (Stream.layered w peer).lowest_layer = peer.lowest_layer) := by
  refine ⟨?_, ?_, ?_, fun w => rfl⟩
  · cases h : c.impl_ <;> simp [Connector.connect, Service.connect, h]
  · cases h : c.impl_ with
    | null => simp [Connector.connect_eh, Service.connect, h]
    | opened =>
        by_cases ha : addr ∈ s.unreachable <;>
          simp [Connector.connect_eh, Service.connect, h, ha]
  · cases h : c.impl_ <;>
      simp [Connector.async_connect, Service.async_connect, h]

/-- C1: closing an open connector with any pending asynchronous connects
cancels each of them synchronously: the trace of `close` invokes every
pending operation's handler exactly once with `OperationCancelled`, every
handler invocation in that trace belongs to a pending operation and carries
`OperationCancelled`, and after `close` returns the pending set is empty, so
the dispatch loop can never invoke a cancelled operation's handler again. -/
theorem close_cancels_all_pending (c : Connector) (s : SvcState)
    (hopen : c.impl_ = impl_type.opened) (hnd : s.pending.Nodup) :
    (∀ h ∈ s.pending,
      ((Connector.close c s).2.2).count
        (Event.handlerCall h (some socket_error.OperationCancelled)) = 1) ∧
    (∀ h e, Event.handlerCall h e ∈ (Connector.close c s).2.2 →
      h ∈ s.pending ∧ e = some socket_error.OperationCancelled) ∧
    ((Connector.close c s).2.1).pending = [] ∧
    (∀ hid e, (Service.complete hid e (Connector.close c s).2.1).2 = []) := by
  have hev : (Connector.close c s).2.2 =
      Event.closeCall impl_type.opened ::
        s.pending.map
          (fun h => Event.handlerCall h (some socket_error.OperationCancelled)) := by
    simp [Connector.close, Service.close, hopen]
  have hst : (Connector.close c s).2.1 = { s with pending := [] } := by
    simp [Connector.close, Service.close, hopen]
  refine ⟨?_, ?_, ?_, ?_⟩
  · intro h hmem
    rw [hev, List.count_cons_of_ne (by simp)]
    have hinj : Function.Injective
        (fun h : Nat =>
          Event.handlerCall h (some socket_error.OperationCancelled)) := by
      intro a b hab
      simpa using hab
    rw [List.count_map_of_injective s.pending _ hinj h]
    exact List.count_eq_one_of_mem hnd hmem
  · intro h e hmem
    rw [hev] at hmem
    simp only [List.mem_cons, List.mem_map] at hmem
    rcases hmem with heq | ⟨a, ha, heq⟩
    · exact absurd heq (by simp)
    · obtain ⟨rfl, rfl⟩ : a = h ∧ some socket_error.OperationCancelled = e := by
        simpa using heq
      exact ⟨ha, rfl⟩
  · rw [hst]
  · intro hid e
    rw [hst]
    simp [Service.complete]

/-- Witness for C1 at a concrete open connector with two pending
operations. -/
theorem close_cancels_all_pending_witness :
    sampleConn.impl_ = impl_type.opened ∧ sampleSvc.pending.Nodup ∧
      ((∀ h ∈ sampleSvc.pending,
        ((Connector.close sampleConn sampleSvc).2.2).count
          (Event.handlerCall h (some socket_error.OperationCancelled)) = 1) ∧
      (∀ h e, Event.handlerCall h e ∈ (Connector.close sampleConn sampleSvc).2.2 →
        h ∈ sampleSvc.pending ∧ e = some socket_error.OperationCancelled) ∧
      ((Connector.close sampleConn sampleSvc).2.1).pending = [] ∧
      (∀ hid e,
        (Service.complete hid e (Connector.close sampleConn sampleSvc).2.1).2 = [])) :=
  ⟨rfl, by decide,
    close_cancels_all_pending sampleConn sampleSvc rfl (by decide)⟩

/-- C3: for any sequence of operations following a `close` that contains no
successful `open`, the connector stays in the closed state at every point
of the sequence, and every blocking or asynchronous connect issued at any
such point fails with `NotOpenError`. -/
theorem close_then_connect_fails_until_reopen (c : Connector) (s : SvcState)
    (l2 : List Op) (hop : Op.op_open ∈ l2 → s.allocFail = true) :
    (Connector.close c s).1.impl_ = impl_type.null ∧
      ∀ l2a l2b, l2 = l2a ++ l2b →
        ((run l2a ((Connector.close c s).1, (Connector.close c s).2.1)).1.impl_ =
            impl_type.null ∧
          (∀ peer addr,
            (Connector.connect
              (run l2a ((Connector.close c s).1, (Connector.close c s).2.1)).1
              peer addr
              (run l2a ((Connector.close c s).1, (Connector.close c s).2.1)).2).2 =
              some socket_error.NotOpenError) ∧
          (∀ peer addr hid,
            (Connector.async_connect
              (run l2a ((Connector.close c s).1, (Connector.close c s).2.1)).1
              peer addr hid
              (run l2a ((Connector.close c s).1, (Connector.close c s).2.1)).2).2.2 =
              some socket_error.NotOpenError)) := by
  have hclosed : (Connector.close c s).1.impl_ = impl_type.null := by
    cases h : c.impl_ <;> simp [Connector.close, Service.close, h]
  refine ⟨hclosed, ?_⟩
  intro l2a l2b heq
  have hrun :
      (run l2a ((Connector.close c s).1, (Connector.close c s).2.1)).1.impl_ =
        impl_type.null := by
    apply run_preserves_closed _ _ hclosed
    intro op hmem hope
    rw [close_allocFail]
    exact hop (by rw [heq]; exact List.mem_append_left l2b (hope ▸ hmem))
  exact ⟨hrun, fun peer addr => connect_closed_aux _ _ _ _ hrun,
    fun peer addr hid => (async_connect_closed_aux _ _ _ _ _ hrun).1⟩

/-- Witness for C3 at a concrete connector and a concrete sequence without
any `open`. -/
theorem close_then_connect_fails_until_reopen_witness :
    (Op.op_open ∈ [Op.op_connect (Stream.base 3) 4, Op.op_impl] →
        sampleSvc.allocFail = true) ∧
      ((Connector.close sampleConn sampleSvc).1.impl_ = impl_type.null ∧
        ∀ l2a l2b, [Op.op_connect (Stream.base 3) 4, Op.op_impl] = l2a ++ l2b →
          ((run l2a ((Connector.close sampleConn sampleSvc).1,
              (Connector.close sampleConn sampleSvc).2.1)).1.impl_ =
              impl_type.null ∧
            (∀ peer addr,
              (Connector.connect
                (run l2a ((Connector.close sampleConn sampleSvc).1,
                  (Connector.close sampleConn sampleSvc).2.1)).1
                peer addr
                (run l2a ((Connector.close sampleConn sampleSvc).1,
                  (Connector.close sampleConn sampleSvc).2.1)).2).2 =
                some socket_error.NotOpenError) ∧
            (∀ peer addr hid,
              (Connector.async_connect
                (run l2a ((Connector.close sampleConn sampleSvc).1,
                  (Connector.close sampleConn sampleSvc).2.1)).1
                peer addr hid
                (run l2a ((Connector.close sampleConn sampleSvc).1,
                  (Connector.close sampleConn sampleSvc).2.1)).2).2.2 =
                some socket_error.NotOpenError))) :=
  ⟨by decide,
    close_then_connect_fails_until_reopen sampleConn sampleSvc
      [Op.op_connect (Stream.base 3) 4, Op.op_impl] (by decide)⟩

/-- C4: on a failing blocking connect, the default-policy overload raises
the error at the call site (and invokes no handler of any kind), while the
error-handler overload returns normally and invokes the caller-supplied
handler exactly once, synchronously within the call, with the same error
classification; no other error is ever reported through the handler. -/
theorem blocking_connect_error_channels (c : Connector) (s : SvcState)
    (peer : Stream) (addr : Nat) (e : socket_error)
    (hfail : (Service.connect c.impl_ peer.lowest_layer addr s).2 = some e) :
    (Connector.connect c peer addr s).2 = some e ∧
      (∀ e2, Event.errorHandlerCall e2 ∉ (Connector.connect c peer addr s).1) ∧
      (∀ h e2, Event.handlerCall h e2 ∉ (Connector.connect c peer addr s).1) ∧
      Connector.connect_eh c peer addr s =
        (Connector.connect c peer addr s).1 ++ [Event.errorHandlerCall e] ∧
      (Connector.connect_eh c peer addr s).count (Event.errorHandlerCall e) = 1 ∧
      (∀ e2, Event.errorHandlerCall e2 ∈ Connector.connect_eh c peer addr s →
        e2 = e) := by
  have hev : (Service.connect c.impl_ peer.lowest_layer addr s).1 =
      [Event.connectCall c.impl_ peer.lowest_layer addr] := by
    cases h : c.impl_ <;> simp [Service.connect, h]
  have hceh : Connector.connect_eh c peer addr s =
      [Event.connectCall c.impl_ peer.lowest_layer addr,
        Event.errorHandlerCall e] := by
    simp [Connector.connect_eh, hfail, hev]
  refine ⟨hfail, ?_, ?_, ?_, ?_, ?_⟩
  · intro e2
    simp only [Connector.connect, hev]
    simp
  · intro h e2
    simp only [Connector.connect, hev]
    simp
  · rw [hceh]
    simp only [Connector.connect, hev]
    rfl
  · rw [hceh, List.count_cons_of_ne (by simp), List.count_singleton]
    simp
  · intro e2 hm
    rw [hceh] at hm
    simpa using hm

/-- Witness for C4 at a concrete open connector, a layered peer stream and
an unreachable address. -/
theorem blocking_connect_error_channels_witness :
    (Service.connect sampleConn.impl_
        (Stream.layered 9 (Stream.base 7)).lowest_layer 5 sampleSvc).2 =
      some socket_error.Unreachable ∧
    ((Connector.connect sampleConn (Stream.layered 9 (Stream.base 7)) 5
          sampleSvc).2 = some socket_error.Unreachable ∧
      (∀ e2, Event.errorHandlerCall e2 ∉
        (Connector.connect sampleConn (Stream.layered 9 (Stream.base 7)) 5
          sampleSvc).1) ∧
      (∀ h e2, Event.handlerCall h e2 ∉
        (Connector.connect sampleConn (Stream.layered 9 (Stream.base 7)) 5
          sampleSvc).1) ∧
      Connector.connect_eh sampleConn (Stream.layered 9 (Stream.base 7)) 5
          sampleSvc =
        (Connector.connect sampleConn (Stream.layered 9 (Stream.base 7)) 5
          sampleSvc).1 ++ [Event.errorHandlerCall socket_error.Unreachable] ∧
      (Connector.connect_eh sampleConn (Stream.layered 9 (Stream.base 7)) 5
          sampleSvc).count
        (Event.errorHandlerCall socket_error.Unreachable) = 1 ∧
      (∀ e2, Event.errorHandlerCall e2 ∈
          Connector.connect_eh sampleConn (Stream.layered 9 (Stream.base 7)) 5
            sampleSvc →
        e2 = socket_error.Unreachable)) :=
  ⟨by decide,
    blocking_connect_error_channels sampleConn sampleSvc
      (Stream.layered 9 (Stream.base 7)) 5 socket_error.Unreachable (by decide)⟩

/-- C7: running `open()` then `close()` then `open()` (with allocation
succeeding) leaves the connector and the service state exactly equal to
those produced by a fresh construction over the same environment with no
pending operations — nothing from the prior open cycle survives, so all
subsequent observable behaviour coincides. -/
theorem open_close_open_like_fresh (c : Connector) (s : SvcState)
    (halloc : s.allocFail = false) :
    (run [Op.op_open, Op.op_close, Op.op_open] (c, s)).1 =
        (basic_socket_connector
          { pending := [], unreachable := s.unreachable,
            allocFail := s.allocFail }).1 ∧
      (run [Op.op_open, Op.op_close, Op.op_open] (c, s)).2 =
        (basic_socket_connector
          { pending := [], unreachable := s.unreachable,
            allocFail := s.allocFail }).2.1 := by
  simp [run, runOp, Connector.«open», Connector.close, Service.«open»,
    Service.close, basic_socket_connector, Service.null, halloc]

/-- Witness for C7 at a concrete connector and state with pending
operations from the prior cycle. -/
theorem open_close_open_like_fresh_witness :
    sampleSvc.allocFail = false ∧
      ((run [Op.op_open, Op.op_close, Op.op_open] (sampleConn, sampleSvc)).1 =
          (basic_socket_connector
            { pending := [], unreachable := sampleSvc.unreachable,
              allocFail := sampleSvc.allocFail }).1 ∧
        (run [Op.op_open, Op.op_close, Op.op_open] (sampleConn, sampleSvc)).2 =
          (basic_socket_connector
            { pending := [], unreachable := sampleSvc.unreachable,
              allocFail := sampleSvc.allocFail }).2.1) :=
  ⟨rfl, open_close_open_like_fresh sampleConn sampleSvc rfl⟩

end Asio
